import Mathlib

/-!
Verification of the request-orchestration layer of the CodePilot frontend
(file lib/api.ts): the cancellation composition in mergeAbortSignals, the
response normalization normaliseResponse, the error classification inside
runCodePilot, and the streaming stub runCodePilotStream.

JavaScript runtime values are modelled by JsValue, thrown or rejected
values by JsError.  A call to runCodePilot has exactly one suspension
point (the awaited fetch); which of the racing events settles it first is
modelled by FirstEvent.  Platform behaviour follows the WHATWG fetch and
DOM standards: fetch called with an already-aborted signal rejects
immediately with the signal's abort reason and dispatches no exchange;
fetch aborted while in flight rejects with the abort reason; property
access through optional chaining on a non-object, or on an object missing
the key, yields undefined.  Objects are association lists with distinct
keys, as produced by JSON.parse on backend payloads.
-/

namespace CodePilot

/-- A JavaScript runtime value, as far as the API layer inspects one. -/
inductive JsValue where
  | undefined
  | null
  | bool (b : Bool)
  | num (n : Int)
  | str (s : String)
  | arr (elems : List JsValue)
  | obj (fields : List (String × JsValue))

/-- True exactly for the two nullish values undefined and null,
the values skipped by the nullish-coalescing operator. -/
def JsValue.isNullish : JsValue → Bool
  | .undefined => true
  | .null => true
  | _ => false

/-- True exactly for array values. -/
def JsValue.isArr : JsValue → Bool
  | .arr _ => true
  | _ => false

/-- The nullish-coalescing operator: a ?? b. -/
def nullish (a b : JsValue) : JsValue :=
  if a.isNullish then b else a

/-- Key lookup in an object's field list; undefined when the key is absent. -/
def getEntries : List (String × JsValue) → String → JsValue
  | [], _ => .undefined
  | (k, v) :: rest, key => if k = key then v else getEntries rest key

/-- Optional-chained property access v?.key: undefined unless v is an
object carrying the key. -/
def JsValue.get : JsValue → String → JsValue
  | .obj fields, key => getEntries fields key
  | _, _ => .undefined

/-- The top-level keys of an object value, in order. -/
def JsValue.keys : JsValue → List String
  | .obj fields => fields.map Prod.fst
  | _ => []

/-- The canonical response shape (types/index.ts, type CodePilotResponse)
as produced by normaliseResponse: every field present, holding a JS value
that is at worst null. -/
structure CodePilotResponse where
  request_id : JsValue
  intent_result : JsValue
  planning_result : JsValue
  test_result : JsValue
  debug_result : JsValue
  generated_code : JsValue
  execution_log : JsValue

/-- Embedding of normaliseResponse (lib/api.ts, lines 34-49).  The source
binds the execution_log value to a const first; the value is identical. -/
def normaliseResponse (raw : JsValue) : CodePilotResponse where
  request_id := nullish (raw.get "request_id") .null
  intent_result :=
    nullish (nullish (raw.get "intent_result") (raw.get "intent_classification")) .null
  planning_result :=
    nullish (nullish (raw.get "planning_result") (raw.get "engineering_plan")) .null
  test_result :=
    nullish (nullish (raw.get "test_result") (raw.get "test_results")) .null
  debug_result :=
    nullish (nullish (raw.get "debug_result") (raw.get "debug_analysis")) .null
  generated_code := nullish (raw.get "generated_code") .null
  execution_log := nullish (raw.get "execution_log") .null

/-- The object literal returned by normaliseResponse, serialized back to a
JS value with the keys in source order. -/
def toJs (r : CodePilotResponse) : JsValue :=
  .obj [("request_id", r.request_id),
        ("intent_result", r.intent_result),
        ("planning_result", r.planning_result),
        ("test_result", r.test_result),
        ("debug_result", r.debug_result),
        ("generated_code", r.generated_code),
        ("execution_log", r.execution_log)]

/-- The expression the page component (app/page.tsx) passes to the
execution timeline: result.execution_log ?? []. -/
def pageTimelineInput (r : CodePilotResponse) : JsValue :=
  nullish r.execution_log (.arr [])

/-- Per-field resolution as the spec words it (section 4.3): try the
primary key name first, then the documented legacy alias, else default to
null.  This definition follows the spec's words and is compared against
normaliseResponse. -/
def specResolve (raw : JsValue) (primaryKey aliasKey : String) : JsValue :=
  if (raw.get primaryKey).isNullish = false then raw.get primaryKey
  else if (raw.get aliasKey).isNullish = false then raw.get aliasKey
  else .null

/-- A value thrown or used as a promise rejection / abort reason.
domException covers platform errors such as the default AbortError;
codePilotError is the CodePilotError class of lib/api.ts (its constructor
sets name to CodePilotError and keeps the optional numeric status);
typeError covers transport-level fetch failures; strVal is a bare string
value, such as the abort reasons this code passes to controller.abort. -/
inductive JsError where
  | domException (name message : String)
  | codePilotError (message : String) (status : Option Nat)
  | typeError (message : String)
  | strVal (s : String)

/-- The expression error?.name: strings have no name property, so a bare
string reason yields undefined (none). -/
def errName : JsError → Option String
  | .domException n _ => some n
  | .codePilotError _ _ => some "CodePilotError"
  | .typeError _ => some "TypeError"
  | .strVal _ => none

/-- The expression error?.message when it is a string (the source guards
with typeof error?.message === "string"); none otherwise.  A bare string
value has no message property. -/
def errMessageStr : JsError → Option String
  | .domException _ m => some m
  | .codePilotError m _ => some m
  | .typeError m => some m
  | .strVal _ => none

/-- True exactly when the value is an instance of CodePilotError. -/
def isCodePilotError : JsError → Bool
  | .codePilotError _ _ => true
  | _ => false

/-- Embedding of the catch block of runCodePilot (lib/api.ts, lines
85-98): an error named AbortError becomes a CodePilotError carrying its
message when that message is a string (else a fixed fallback text); a
CodePilotError is rethrown unchanged; anything else becomes the generic
network-failure CodePilotError. -/
def classifyCatch (e : JsError) : JsError :=
  if errName e = some "AbortError" then
    .codePilotError ((errMessageStr e).getD "Request aborted or timed out") none
  else if isCodePilotError e then e
  else .codePilotError "Network error while calling CodePilot. Please try again." none

/-- The options record of runCodePilot.  The source defaults timeoutMs to
60000; timing is abstracted into FirstEvent below, so the numeric value
does not influence the modelled observables. -/
structure RunCodePilotOptions where
  problem : String
  userId : Option String
  timeoutMs : Nat

/-- The state of the caller-supplied AbortSignal at call time: absent,
supplied and not yet aborted, or already aborted with its reason. -/
inductive ParentState where
  | noParent
  | active
  | alreadyAborted (reason : JsError)

/-- The event that settles the single suspended fetch first, when the
exchange was actually dispatched: the exchange resolves with a status,
status text and decoded JSON body; the exchange fails at transport level;
the live parent signal aborts (firing the merge listener, which aborts
the derived controller with the parent's reason); or the internal timeout
fires, calling controller.abort with the string reason Request timed
out. -/
inductive FirstEvent where
  | exchangeResolves (status : Nat) (statusText : String) (body : JsValue)
  | exchangeNetworkError (error : JsError)
  | parentAborts (reason : JsError)
  | timeoutFires

/-- The observables of one completed call: the settled outcome; the
request body of the dispatched exchange, none when no exchange was
dispatched; whether the finally block cleared the timeout before
returning; and whether the abort listener added to the caller's signal by
mergeAbortSignals is still attached to that signal when the call
returns. -/
structure CallResult where
  outcome : Except JsError CodePilotResponse
  exchange : Option JsValue
  timerClearedAtReturn : Bool
  listenerAttachedAtReturn : Bool

/-- The body JSON.stringify produces for the solve request: problem plus
the optional user identifier. -/
def requestBody (opts : RunCodePilotOptions) : JsValue :=
  .obj [("problem", .str opts.problem),
        ("user_id", match opts.userId with
          | some u => .str u
          | none => .undefined)]

/-- Embedding of runCodePilot (lib/api.ts, lines 51-102) composed with
mergeAbortSignals (lines 22-32) and platform fetch semantics.  When the
parent signal is already aborted, mergeAbortSignals aborts the derived
controller with the same reason and adds no listener; fetch then rejects
immediately with that reason and dispatches no exchange.  Otherwise the
exchange is dispatched and the first event decides the outcome: a
resolution inside the success range is normalised; a resolution outside
it throws the Backend error CodePilotError carrying the numeric status; a
transport failure, a parent abort or the timeout reject the fetch with
the corresponding reason.  Every rejection passes through the catch
block, and the finally block always clears the timeout.  The once-only
parent listener is removed only by firing; on every other path it stays
attached. -/
def runCodePilot (opts : RunCodePilotOptions) (parent : ParentState)
    (ev : FirstEvent) : CallResult :=
  match parent with
  | .alreadyAborted reason =>
      { outcome := .error (classifyCatch reason)
        exchange := none
        timerClearedAtReturn := true
        listenerAttachedAtReturn := false }
  | p =>
      let attached : Bool := match p with
        | .active => true
        | _ => false
      match ev with
      | .exchangeResolves status statusText body =>
          if 200 ≤ status && status ≤ 299 then
            { outcome := .ok (normaliseResponse body)
              exchange := some (requestBody opts)
              timerClearedAtReturn := true
              listenerAttachedAtReturn := attached }
          else
            { outcome := .error (classifyCatch (.codePilotError
                ("Backend error: " ++ toString status ++ " " ++ statusText)
                (some status)))
              exchange := some (requestBody opts)
              timerClearedAtReturn := true
              listenerAttachedAtReturn := attached }
      | .exchangeNetworkError e =>
          { outcome := .error (classifyCatch e)
            exchange := some (requestBody opts)
            timerClearedAtReturn := true
            listenerAttachedAtReturn := attached }
      | .parentAborts reason =>
          { outcome := .error (classifyCatch reason)
            exchange := some (requestBody opts)
            timerClearedAtReturn := true
            listenerAttachedAtReturn := false }
      | .timeoutFires =>
          { outcome := .error (classifyCatch (.strVal "Request timed out"))
            exchange := some (requestBody opts)
            timerClearedAtReturn := true
            listenerAttachedAtReturn := attached }

/-- The callback slots of the streaming operation. -/
structure CodePilotStreamHandlers where
  onPartialUpdate : Option (CodePilotResponse → Unit)
  onComplete : Option (CodePilotResponse → Unit)

/-- The observables of a streaming call: its outcome and the dispatched
exchange, if any. -/
structure StreamResult where
  outcome : Except JsError Unit
  exchange : Option JsValue

/-- Embedding of runCodePilotStream (lib/api.ts, lines 112-119): it
throws the fixed CodePilotError immediately and touches nothing else. -/
def runCodePilotStream (_options : RunCodePilotOptions)
    (_handlers : CodePilotStreamHandlers) : StreamResult :=
  { outcome := .error (.codePilotError "Streaming API is not enabled yet." none)
    exchange := none }

/-- Concrete options used by concrete evaluations; the field values do
not influence any modelled observable other than the request body. -/
def defaultOpts : RunCodePilotOptions :=
  { problem := "p", userId := none, timeoutMs := 60000 }

/-- The decoded status-200 body of the legacy-alias example in the spec:
request_id r1 and a test_results object with summary ok and empty
cases. -/
def legacyBody : JsValue :=
  .obj [("request_id", .str "r1"),
        ("test_results", .obj [("summary", .str "ok"), ("cases", .arr [])])]

/-- The canonical response whose every field is null, the value
normalization produces from a payload carrying none of the canonical
keys. -/
def nullResponse : CodePilotResponse :=
  ⟨.null, .null, .null, .null, .null, .null, .null⟩

/-! Helper lemmas about nullish coalescing and the serialized canonical
object. -/

theorem nullish_null_ne_undefined (a : JsValue) : nullish a .null ≠ .undefined := by
  unfold nullish
  split
  · intro h
    exact JsValue.noConfusion h
  · intro h
    subst h
    simp [JsValue.isNullish] at *

theorem isNullish_null : JsValue.isNullish .null = true := rfl

theorem isNullish_undefined : JsValue.isNullish .undefined = true := rfl

theorem nullish_null_idem (a : JsValue) :
    nullish (nullish a .null) .null = nullish a .null := by
  cases h : a.isNullish <;> simp [nullish, h, isNullish_null, isNullish_undefined]

theorem nullish_renorm_aliased (a : JsValue) :
    nullish (nullish (nullish a .null) .undefined) .null = nullish a .null := by
  cases h : a.isNullish <;> simp [nullish, h, isNullish_null, isNullish_undefined]

theorem toJs_get_request_id (r : CodePilotResponse) :
    (toJs r).get "request_id" = r.request_id := rfl

theorem toJs_get_intent_result (r : CodePilotResponse) :
    (toJs r).get "intent_result" = r.intent_result := rfl

theorem toJs_get_planning_result (r : CodePilotResponse) :
    (toJs r).get "planning_result" = r.planning_result := rfl

theorem toJs_get_test_result (r : CodePilotResponse) :
    (toJs r).get "test_result" = r.test_result := rfl

theorem toJs_get_debug_result (r : CodePilotResponse) :
    (toJs r).get "debug_result" = r.debug_result := rfl

theorem toJs_get_generated_code (r : CodePilotResponse) :
    (toJs r).get "generated_code" = r.generated_code := rfl

theorem toJs_get_execution_log (r : CodePilotResponse) :
    (toJs r).get "execution_log" = r.execution_log := rfl

theorem toJs_get_intent_classification (r : CodePilotResponse) :
    (toJs r).get "intent_classification" = .undefined := rfl

theorem toJs_get_engineering_plan (r : CodePilotResponse) :
    (toJs r).get "engineering_plan" = .undefined := rfl

theorem toJs_get_test_results (r : CodePilotResponse) :
    (toJs r).get "test_results" = .undefined := rfl

theorem toJs_get_debug_analysis (r : CodePilotResponse) :
    (toJs r).get "debug_analysis" = .undefined := rfl

theorem nullish_chain_eq_specResolve (raw : JsValue) (primaryKey aliasKey : String) :
    nullish (nullish (raw.get primaryKey) (raw.get aliasKey)) .null =
      specResolve raw primaryKey aliasKey := by
  cases h1 : (raw.get primaryKey).isNullish <;>
    cases h2 : (raw.get aliasKey).isNullish <;>
      simp [nullish, specResolve, h1, h2]

theorem classifyCatch_codePilotError (m : String) (s : Option Nat) :
    classifyCatch (.codePilotError m s) = .codePilotError m s := rfl

/-! Claim theorems. -/

/-- Claim C1 (code bug): when the internal timeout settles the suspended
fetch, the abort reason is the bare string Request timed out; a string
has no name property, so the catch test error?.name === AbortError fails
and runCodePilot throws the generic network-failure CodePilotError.  The
call is not classified as a cancellation and the reason text is lost,
against the claim that a cancelled call fails with a Cancellation failure
carrying the original reason; only the timer-cleanup part of the claim
holds. -/
theorem runCodePilot_timeout_misclassified :
    (runCodePilot defaultOpts .noParent .timeoutFires).outcome =
      .error (.codePilotError
        "Network error while calling CodePilot. Please try again." none) ∧
    (runCodePilot defaultOpts .noParent .timeoutFires).timerClearedAtReturn = true :=
  ⟨rfl, rfl⟩

/-- Claim C2 (counterexample): normalizing an empty payload leaves
execution_log equal to null, not an empty sequence, refuting the claim
that every sequence field of the normalized response is a sequence. -/
theorem normaliseResponse_execution_log_not_sequence :
    (normaliseResponse (JsValue.obj [])).execution_log = JsValue.null ∧
    ((normaliseResponse (JsValue.obj [])).execution_log).isArr = false :=
  ⟨rfl, rfl⟩

/-- Claim C2 (amended): normalization keeps execution_log present but
defaults it to null, not the empty sequence, when the raw value is
nullish, and passes it through unchanged otherwise; the empty-sequence
default is applied by the consuming page, which passes
result.execution_log ?? [] to the timeline. -/
theorem normaliseResponse_execution_log_passthrough (raw : JsValue) :
    (normaliseResponse raw).execution_log ≠ .undefined ∧
    ((raw.get "execution_log").isNullish = true →
      (normaliseResponse raw).execution_log = .null) ∧
    ((raw.get "execution_log").isNullish = false →
      (normaliseResponse raw).execution_log = raw.get "execution_log") ∧
    ((raw.get "execution_log").isNullish = true →
      pageTimelineInput (normaliseResponse raw) = .arr []) := by
  refine ⟨nullish_null_ne_undefined _, ?_, ?_, ?_⟩
  · intro h
    show nullish (raw.get "execution_log") .null = .null
    simp [nullish, h]
  · intro h
    show nullish (raw.get "execution_log") .null = raw.get "execution_log"
    simp [nullish, h]
  · intro h
    show nullish (nullish (raw.get "execution_log") .null) (.arr []) = .arr []
    simp [nullish, h, isNullish_null]

/-- Witness for the amended claim C2 at a payload without an
execution_log key. -/
theorem normaliseResponse_execution_log_passthrough_witness :
    (normaliseResponse (JsValue.obj [("request_id", JsValue.str "r1")])).execution_log
        = JsValue.null ∧
    pageTimelineInput (normaliseResponse (JsValue.obj [("request_id", JsValue.str "r1")]))
        = JsValue.arr [] :=
  ⟨(normaliseResponse_execution_log_passthrough _).2.1 rfl,
   (normaliseResponse_execution_log_passthrough _).2.2.2 rfl⟩

/-- Claim C3 (code bug): a call that completes successfully while the
caller-supplied signal stays live returns with the merge listener still
attached to that signal — only the timeout is cleared in the finally
block, the subscription added by mergeAbortSignals is never removed —
against the claim that both resources are released on every exit
path. -/
theorem runCodePilot_listener_leak :
    (runCodePilot defaultOpts .active
        (.exchangeResolves 200 "OK" (JsValue.obj []))).listenerAttachedAtReturn = true ∧
    (runCodePilot defaultOpts .active
        (.exchangeResolves 200 "OK" (JsValue.obj []))).timerClearedAtReturn = true ∧
    (runCodePilot defaultOpts .active
        (.exchangeResolves 200 "OK" (JsValue.obj []))).outcome =
      .ok (normaliseResponse (JsValue.obj [])) :=
  ⟨rfl, rfl, rfl⟩

/-- Claim C4: for every raw payload, the normalized response carries
every top-level key of the canonical shape, in source order, and each
field holds a value that is at worst null — never undefined, no key
omitted. -/
theorem normaliseResponse_top_level_complete (raw : JsValue) :
    (toJs (normaliseResponse raw)).keys =
      ["request_id", "intent_result", "planning_result", "test_result",
       "debug_result", "generated_code", "execution_log"] ∧
    (normaliseResponse raw).request_id ≠ .undefined ∧
    (normaliseResponse raw).intent_result ≠ .undefined ∧
    (normaliseResponse raw).planning_result ≠ .undefined ∧
    (normaliseResponse raw).test_result ≠ .undefined ∧
    (normaliseResponse raw).debug_result ≠ .undefined ∧
    (normaliseResponse raw).generated_code ≠ .undefined ∧
    (normaliseResponse raw).execution_log ≠ .undefined := by
  refine ⟨rfl, ?_, ?_, ?_, ?_, ?_, ?_, ?_⟩ <;> exact nullish_null_ne_undefined _

/-- Claim C5 (code bug): with a caller token already aborted at call time
carrying a string reason, no exchange is dispatched (that part of the
claim holds), but fetch rejects with the string reason, the AbortError
name test fails, and the call fails with the generic network-failure
CodePilotError instead of a CancellationError. -/
theorem runCodePilot_preAborted_string_reason (ev : FirstEvent) :
    (runCodePilot defaultOpts (.alreadyAborted (.strVal "user cancelled")) ev).exchange
        = none ∧
    (runCodePilot defaultOpts (.alreadyAborted (.strVal "user cancelled")) ev).outcome =
      .error (.codePilotError
        "Network error while calling CodePilot. Please try again." none) :=
  ⟨rfl, rfl⟩

/-- Claim C6: each aliased canonical field is resolved by the fixed
precedence the spec states — primary key, then documented legacy alias,
else null — and the status-200 legacy body of the spec's example
normalizes to a response whose test_result has summary ok and an empty
cases sequence. -/
theorem normaliseResponse_alias_precedence (raw : JsValue) :
    ((normaliseResponse raw).intent_result
        = specResolve raw "intent_result" "intent_classification" ∧
     (normaliseResponse raw).planning_result
        = specResolve raw "planning_result" "engineering_plan" ∧
     (normaliseResponse raw).test_result
        = specResolve raw "test_result" "test_results" ∧
     (normaliseResponse raw).debug_result
        = specResolve raw "debug_result" "debug_analysis") ∧
    (runCodePilot defaultOpts .noParent (.exchangeResolves 200 "OK" legacyBody)).outcome
        = .ok (normaliseResponse legacyBody) ∧
    ((normaliseResponse legacyBody).test_result).get "summary" = .str "ok" ∧
    ((normaliseResponse legacyBody).test_result).get "cases" = .arr [] := by
  refine ⟨⟨?_, ?_, ?_, ?_⟩, rfl, rfl, rfl⟩ <;> exact nullish_chain_eq_specResolve raw _ _

/-- Claim C7: normalization is idempotent — re-normalizing the serialized
canonical object produced by a previous normalization yields the
identical canonical value. -/
theorem normaliseResponse_idempotent (raw : JsValue) :
    normaliseResponse (toJs (normaliseResponse raw)) = normaliseResponse raw := by
  unfold normaliseResponse
  simp only [toJs_get_request_id, toJs_get_intent_result, toJs_get_planning_result,
    toJs_get_test_result, toJs_get_debug_result, toJs_get_generated_code,
    toJs_get_execution_log, toJs_get_intent_classification, toJs_get_engineering_plan,
    toJs_get_test_results, toJs_get_debug_analysis]
  simp only [CodePilotResponse.mk.injEq]
  exact ⟨nullish_null_idem _, nullish_renorm_aliased _, nullish_renorm_aliased _,
    nullish_renorm_aliased _, nullish_renorm_aliased _, nullish_null_idem _,
    nullish_null_idem _⟩

/-- Claim C8: a completed exchange whose status lies outside the success
range makes runCodePilot fail with the CodePilotError built from the
numeric status and status text, carrying the status. -/
theorem runCodePilot_http_error (opts : RunCodePilotOptions) (p : ParentState)
    (status : Nat) (statusText : String) (body : JsValue)
    (hp : p = .noParent ∨ p = .active)
    (hs : (200 ≤ status && status ≤ 299) = false) :
    (runCodePilot opts p (.exchangeResolves status statusText body)).outcome =
      .error (.codePilotError
        ("Backend error: " ++ toString status ++ " " ++ statusText) (some status)) := by
  rcases hp with h | h <;> subst h <;>
    simp [runCodePilot, hs, classifyCatch_codePilotError]

/-- Witness for claim C8 at the spec's example: status 500 with an empty
body yields the HTTP failure carrying status 500. -/
theorem runCodePilot_http_error_witness :
    (runCodePilot defaultOpts .noParent
        (.exchangeResolves 500 "Internal Server Error" (JsValue.obj []))).outcome =
      .error (.codePilotError
        ("Backend error: " ++ toString 500 ++ " " ++ "Internal Server Error")
        (some 500)) :=
  runCodePilot_http_error defaultOpts .noParent 500 "Internal Server Error"
    (JsValue.obj []) (Or.inl rfl) (by decide)

/-- Claim C9: every call to the streaming operation fails with the fixed
Streaming API is not enabled yet CodePilotError and dispatches no
exchange, for all options and handlers. -/
theorem runCodePilotStream_unavailable (o : RunCodePilotOptions)
    (handlers : CodePilotStreamHandlers) :
    runCodePilotStream o handlers =
      { outcome := .error (.codePilotError "Streaming API is not enabled yet." none),
        exchange := none } := rfl

/-- Claim C10: normalization is total — null, undefined, primitives and
arrays all normalize to the all-null canonical response — and the
generated_code field is resolved from the primary key generated_code
alone (payloads agreeing on that key normalize to the same
generated_code), defaulting to null. -/
theorem normaliseResponse_total_generated_code (r1 r2 : JsValue) :
    (r1.get "generated_code" = r2.get "generated_code" →
      (normaliseResponse r1).generated_code = (normaliseResponse r2).generated_code) ∧
    normaliseResponse JsValue.null = nullResponse ∧
    normaliseResponse JsValue.undefined = nullResponse ∧
    normaliseResponse (JsValue.str "x") = nullResponse ∧
    normaliseResponse (JsValue.num 0) = nullResponse ∧
    normaliseResponse (JsValue.bool true) = nullResponse ∧
    normaliseResponse (JsValue.arr []) = nullResponse ∧
    (normaliseResponse (JsValue.obj [])).generated_code = JsValue.null ∧
    (normaliseResponse (JsValue.obj [("generated_code", JsValue.str "c")])).generated_code
        = JsValue.str "c" := by
  refine ⟨?_, rfl, rfl, rfl, rfl, rfl, rfl, rfl, rfl⟩
  intro h
  show nullish (r1.get "generated_code") .null = nullish (r2.get "generated_code") .null
  rw [h]

/-- Witness for claim C10: two payloads agreeing on generated_code
normalize to the same generated_code value. -/
theorem normaliseResponse_total_generated_code_witness :
    (normaliseResponse (JsValue.obj [("generated_code", JsValue.str "c")])).generated_code =
      (normaliseResponse (JsValue.obj [("generated_code", JsValue.str "c"),
        ("request_id", JsValue.str "x")])).generated_code :=
  (normaliseResponse_total_generated_code _ _).1 rfl

end CodePilot
